import Mathlib

/-!
Verification of the `AddItemForm` React component
(`src/roommate-app/src/components/inventory/AddItemForm.tsx`).

The component is embedded shallowly: the form's reactive state becomes an
explicit record `FormState`, every event handler becomes a function from
state to state (plus, for submit, a list of observable effects), and the
JavaScript primitives the code relies on (`parseInt`, `trim`,
`toLowerCase`, `includes`, truthiness, NaN comparisons) are modelled
explicitly.  `NaN` is modelled as `Option.none`: every JS comparison
against NaN is false, which `jsGE`/`jsGT`/`jsLT`/`jsLE` reproduce.
-/

/-- JS whitespace characters recognised by `String.prototype.trim` and the
leading-whitespace skip of `parseInt` (ASCII whitespace plus NBSP, BOM and
the line/paragraph separators). -/
def isJSWhitespace (c : Char) : Bool :=
  c = ' ' || c = '\t' || c = '\n' || c = '\r' ||
  c.toNat = 0x0b || c.toNat = 0x0c || c.toNat = 0xa0 ||
  c.toNat = 0x2028 || c.toNat = 0x2029 || c.toNat = 0xfeff

/-- Model of `String.prototype.trim`: drop JS whitespace from both ends. -/
def jsTrim (s : String) : String :=
  String.mk (((s.toList.dropWhile isJSWhitespace).reverse.dropWhile isJSWhitespace).reverse)

/-- `startsWith needle hay`: `needle` is a leading segment of `hay`. -/
def startsWith : List Char → List Char → Bool
  | [], _ => true
  | _ :: _, [] => false
  | a :: as, b :: bs => a = b && startsWith as bs

/-- `occursIn needle hay`: `needle` occurs contiguously inside `hay`. -/
def occursIn (needle : List Char) : List Char → Bool
  | [] => startsWith needle []
  | c :: t => startsWith needle (c :: t) || occursIn needle t

/-- Model of `hay.includes(needle)` on JS strings. -/
def jsIncludes (hay needle : String) : Bool :=
  occursIn needle.toList hay.toList

/-- Model of `String.prototype.toLowerCase`, character by character. -/
def jsToLower (s : String) : String :=
  String.mk (s.toList.map Char.toLower)

/-- Decimal digit value, as used by `parseInt` in radix 10. -/
def decDigitVal (c : Char) : Option Nat :=
  if '0' ≤ c ∧ c ≤ '9' then some (c.toNat - 48) else none

/-- Hexadecimal digit value, as used by `parseInt` after a `0x` prefix. -/
def hexDigitVal (c : Char) : Option Nat :=
  if '0' ≤ c ∧ c ≤ '9' then some (c.toNat - 48)
  else if 'a' ≤ c ∧ c ≤ 'f' then some (c.toNat - 87)
  else if 'A' ≤ c ∧ c ≤ 'F' then some (c.toNat - 55)
  else none

/-- Longest prefix of digit values under the digit classifier `f`. -/
def takeDigits (f : Char → Option Nat) : List Char → List Nat
  | [] => []
  | c :: cs =>
    match f c with
    | some d => d :: takeDigits f cs
    | none => []

/-- Value of a digit list in the given radix. -/
def digitsToNat (radix : Nat) (ds : List Nat) : Nat :=
  ds.foldl (fun a d => a * radix + d) 0

/-- Model of JS `parseInt(s)` with the radix argument omitted: skip leading
whitespace, read an optional sign, treat a `0x`/`0X` prefix as radix 16 and
default to radix 10, then take the longest digit prefix.  `none` models the
`NaN` result (no digits at all). -/
def parseIntJS (s : String) : Option Int :=
  let cs := s.toList.dropWhile isJSWhitespace
  let sc : Int × List Char :=
    match cs with
    | '-' :: rest => (-1, rest)
    | '+' :: rest => (1, rest)
    | _ => (1, cs)
  let rc : Nat × List Char :=
    match sc.2 with
    | '0' :: 'x' :: rest => (16, rest)
    | '0' :: 'X' :: rest => (16, rest)
    | _ => (10, sc.2)
  let f := if rc.1 = 16 then hexDigitVal else decDigitVal
  let ds := takeDigits f rc.2
  if ds.isEmpty then none else some (sc.1 * (digitsToNat rc.1 ds : Int))

/-- JS `x >= y` where `x` may be NaN (`none`): false on NaN. -/
def jsGE (x : Option Int) (y : Int) : Bool :=
  match x with
  | none => false
  | some v => decide (y ≤ v)

/-- JS `x > y` where `x` may be NaN (`none`): false on NaN. -/
def jsGT (x : Option Int) (y : Int) : Bool :=
  match x with
  | none => false
  | some v => decide (y < v)

/-- JS `x < y` where `x` may be NaN (`none`): false on NaN. -/
def jsLT (x : Option Int) (y : Int) : Bool :=
  match x with
  | none => false
  | some v => decide (v < y)

/-- JS `x <= y` where `x` may be NaN (`none`): false on NaN. -/
def jsLE (x : Option Int) (y : Int) : Bool :=
  match x with
  | none => false
  | some v => decide (v ≤ y)

/-- The static suggestion source (`COMMON_ITEMS`, line 15 of the source). -/
def COMMON_ITEMS : List String :=
  ["Milk", "Bread", "Eggs", "Rice", "Pasta", "Chicken", "Tomatoes", "Onions", "Potatoes", "Cheese"]

/-- The `errors` state object: one message per field, `""` meaning valid. -/
structure Errors where
  name : String
  quantity : String
  threshold : String
deriving DecidableEq, Repr

/-- The `touched` state object: one flag per field. -/
structure Touched where
  name : Bool
  quantity : Bool
  threshold : Bool
deriving DecidableEq, Repr

/-- The component-local reactive state of `AddItemForm`. -/
structure FormState where
  name : String
  quantity : String
  lowThreshold : String
  errors : Errors
  touched : Touched
  suggestions : List String
  showSuggestions : Bool
  isLoading : Bool
deriving DecidableEq, Repr

/-- The `useState` initial values (lines 18-25 of the source). -/
def initialState : FormState :=
  { name := "", quantity := "", lowThreshold := ""
  , errors := { name := "", quantity := "", threshold := "" }
  , touched := { name := false, quantity := false, threshold := false }
  , suggestions := [], showSuggestions := false, isLoading := false }

/-- The household object consumed from `useHousehold`; only its `key` is read. -/
structure Household where
  key : String
deriving DecidableEq, Repr

/-- The payload passed to `createInventoryItem` (lines 75-80).  The numeric
fields are the results of `parseInt`, so they may be NaN (`none`). -/
structure Payload where
  name : String
  quantity : Option Int
  lowThreshold : Option Int
  householdId : String
deriving DecidableEq, Repr

/-- Observable effects of the submit handler: the service call, the toasts,
the diagnostic log and the parent callbacks. -/
inductive Effect where
  | createItem (p : Payload)
  | toastSuccess (msg : String)
  | toastError (msg : String)
  | logError
  | callOnSuccess
  | callOnCancel
deriving DecidableEq, Repr

/-- The error object computed by `validate` (lines 41-46): each field rule is
run regardless of touched state.  `!quantity || parseInt(quantity) < 0` and
`!lowThreshold || parseInt(lowThreshold) <= 0` use JS truthiness (a string is
falsy iff empty) and NaN-propagating comparisons. -/
def validateErrors (s : FormState) : Errors :=
  { name := if jsTrim s.name = "" then "Item name is required." else ""
  , quantity :=
      if s.quantity = "" || jsLT (parseIntJS s.quantity) 0 then "Quantity must be ≥ 0." else ""
  , threshold :=
      if s.lowThreshold = "" || jsLE (parseIntJS s.lowThreshold) 0 then "Threshold must be > 0." else "" }

/-- The boolean returned by `validate` (line 47):
`!newErrors.name && !newErrors.quantity && !newErrors.threshold`. -/
def validateOk (s : FormState) : Bool :=
  (validateErrors s).name = "" && (validateErrors s).quantity = "" &&
  (validateErrors s).threshold = ""

/-- `validate` (lines 41-48): sets `errors` to the recomputed object and
returns whether all three messages are empty. -/
def validate (s : FormState) : FormState × Bool :=
  ({ s with errors := validateErrors s }, validateOk s)

/-- The suggestion filter used on every name keystroke and on focus:
`COMMON_ITEMS.filter(item => item.toLowerCase().includes(value.toLowerCase()))`. -/
def filterSuggestions (value : String) : List String :=
  COMMON_ITEMS.filter (fun item => jsIncludes (jsToLower item) (jsToLower value))

/-- `handleNameChange` (lines 50-60): store the raw value; when non-empty,
recompute the suggestions and show them iff the filtered list is non-empty,
otherwise hide the panel; when the name is already touched, resynchronise its
error with the new value. -/
def handleNameChange (value : String) (s : FormState) : FormState :=
  let s1 := { s with name := value }
  let s2 :=
    if value.length > 0 then
      let filtered := filterSuggestions value
      { s1 with suggestions := filtered, showSuggestions := filtered.length > 0 }
    else
      { s1 with showSuggestions := false }
  if s.touched.name then
    { s2 with errors :=
        { s2.errors with name := if jsTrim value = "" then "Item name is required." else "" } }
  else s2

/-- Quantity `onChange` (line 124): store the raw value; when touched,
the error is cleared iff the value is non-empty and `parseInt(value) >= 0`. -/
def handleQuantityChange (value : String) (s : FormState) : FormState :=
  let s1 := { s with quantity := value }
  if s.touched.quantity then
    { s1 with errors :=
        { s1.errors with quantity :=
            if value ≠ "" && jsGE (parseIntJS value) 0 then "" else "Quantity must be ≥ 0." } }
  else s1

/-- Threshold `onChange` (line 141): store the raw value; when touched,
the error is cleared iff the value is non-empty and `parseInt(value) > 0`. -/
def handleThresholdChange (value : String) (s : FormState) : FormState :=
  let s1 := { s with lowThreshold := value }
  if s.touched.threshold then
    { s1 with errors :=
        { s1.errors with threshold :=
            if value ≠ "" && jsGT (parseIntJS value) 0 then "" else "Threshold must be > 0." } }
  else s1

/-- Name `onBlur` (line 103), synchronous part: mark the name touched.  The
`setTimeout(() => setShowSuggestions(false), 200)` is modelled separately by
`nameBlurTimeoutFires`, since it runs only when the timer fires. -/
def handleNameBlur (s : FormState) : FormState :=
  { s with touched := { s.touched with name := true } }

/-- The delayed callback scheduled by the name `onBlur` (line 103). -/
def nameBlurTimeoutFires (s : FormState) : FormState :=
  { s with showSuggestions := false }

/-- Name `onFocus` (line 104):
`name && setSuggestions(COMMON_ITEMS.filter(...)) && setShowSuggestions(true)`.
`setSuggestions(...)` evaluates to `undefined`, which is falsy, so the
second `&&` short-circuits and `setShowSuggestions(true)` never executes:
focusing recomputes the suggestion list but never changes `showSuggestions`. -/
def handleNameFocus (s : FormState) : FormState :=
  if s.name ≠ "" then { s with suggestions := filterSuggestions s.name }
  else s

/-- Quantity `onBlur` (line 125): mark the quantity touched. -/
def handleQuantityBlur (s : FormState) : FormState :=
  { s with touched := { s.touched with quantity := true } }

/-- Threshold `onBlur` (line 142): mark the threshold touched. -/
def handleThresholdBlur (s : FormState) : FormState :=
  { s with touched := { s.touched with threshold := true } }

/-- Suggestion `onClick` (line 110): set the name to the clicked item and
hide the panel. -/
def handleSuggestionClick (item : String) (s : FormState) : FormState :=
  { s with name := item, showSuggestions := false }

/-- `handleSubmit` (lines 62-89).  `selectedHousehold` is the value read from
the household context at submit time; `serviceOk` tells whether the awaited
`createInventoryItem` call resolves (`true`) or rejects (`false`).  Returns
the final component state together with the ordered observable effects.  The
`catch` branch swallows the rejection (it is logged and toasted, never
rethrown), and the `finally` branch clears `isLoading` on both paths, which
is why the function is total and both service branches end with
`isLoading := false`. -/
def handleSubmit (selectedHousehold : Option Household) (serviceOk : Bool)
    (s : FormState) : FormState × List Effect :=
  let s1 := { s with touched := { name := true, quantity := true, threshold := true }
                   , errors := validateErrors s }
  if validateOk s = false then (s1, [])
  else
    match selectedHousehold with
    | none => (s1, [Effect.toastError "Please select a household first"])
    | some hh =>
      let s2 := { s1 with isLoading := true }
      let payload : Payload :=
        { name := s.name, quantity := parseIntJS s.quantity
        , lowThreshold := parseIntJS s.lowThreshold, householdId := hh.key }
      if serviceOk then
        ({ s2 with isLoading := false },
         [Effect.createItem payload, Effect.toastSuccess "Item added successfully",
          Effect.callOnSuccess])
      else
        ({ s2 with isLoading := false },
         [Effect.createItem payload, Effect.logError, Effect.toastError "Failed to add item"])

/-- The `isValid` expression (line 91):
`name.trim() && quantity && parseInt(quantity) >= 0 && lowThreshold && parseInt(lowThreshold) > 0`,
read as a boolean by the `disabled` attribute. -/
def isValidB (s : FormState) : Bool :=
  !(jsTrim s.name == "") && !(s.quantity == "") && jsGE (parseIntJS s.quantity) 0 &&
  !(s.lowThreshold == "") && jsGT (parseIntJS s.lowThreshold) 0

/-- The submit button's `disabled` attribute (line 151): `!isValid || isLoading`. -/
def submitDisabled (s : FormState) : Bool :=
  !isValidB s || s.isLoading

/-- The render guard of the name error paragraph (line 115):
`errors.name && touched.name`. -/
def rendersNameError (s : FormState) : Bool :=
  !(s.errors.name == "") && s.touched.name

/-- The render guard of the quantity error paragraph (line 129). -/
def rendersQuantityError (s : FormState) : Bool :=
  !(s.errors.quantity == "") && s.touched.quantity

/-- The render guard of the threshold error paragraph (line 147). -/
def rendersThresholdError (s : FormState) : Bool :=
  !(s.errors.threshold == "") && s.touched.threshold

/-- The submit-enabled predicate stated by the spec, formalised from its
words: "name is non-empty after trimming, quantity is present and parses to
an integer ≥ 0, and threshold is present and parses to an integer > 0". -/
def specSubmitEnabled (s : FormState) : Prop :=
  jsTrim s.name ≠ "" ∧
  s.quantity ≠ "" ∧ (∃ n, parseIntJS s.quantity = some n ∧ 0 ≤ n) ∧
  s.lowThreshold ≠ "" ∧ (∃ m, parseIntJS s.lowThreshold = some m ∧ 0 < m)

/-- A valid, fully-filled concrete state used by several scenarios. -/
def milkState : FormState :=
  { initialState with name := "Milk", quantity := "2", lowThreshold := "1" }

/-- Whether an effect is a creation-service call. -/
def isCreateItem : Effect → Bool
  | Effect.createItem _ => true
  | _ => false

theorem jsGE_iff (x : Option Int) (y : Int) :
    jsGE x y = true ↔ ∃ v, x = some v ∧ y ≤ v := by
  cases x <;> simp [jsGE]

theorem jsGT_iff (x : Option Int) (y : Int) :
    jsGT x y = true ↔ ∃ v, x = some v ∧ y < v := by
  cases x <;> simp [jsGT]

theorem validateOk_errors (s : FormState) (hv : validateOk s = true) :
    validateErrors s = { name := "", quantity := "", threshold := "" } := by
  unfold validateOk at hv
  simp only [Bool.and_eq_true, decide_eq_true_eq] at hv
  cases hve : validateErrors s with
  | mk a b c =>
    rw [hve] at hv
    simp only [Errors.mk.injEq]
    exact ⟨hv.1.1, hv.1.2, hv.2⟩

/-- C1: for every form state, the submit action is enabled (`isValid` is
true) iff the trimmed name is non-empty, the quantity parses to an integer
≥ 0, and the threshold parses to an integer > 0 — and the predicate is
independent of the touched state. -/
theorem submit_enabled_iff_spec (s : FormState) :
    (isValidB s = true ↔ specSubmitEnabled s) ∧
    (∀ t : Touched, isValidB { s with touched := t } = isValidB s) := by
  refine ⟨?_, fun t => rfl⟩
  unfold isValidB specSubmitEnabled
  simp [Bool.and_eq_true, jsGE_iff, jsGT_iff, and_assoc]

/-- C2: submitting `name="Milk"`, `quantity="2"`, `threshold="1"` with
household "H1" selected calls the creation service exactly once with the
payload `{name:"Milk", quantity:2, lowThreshold:1, householdId:"H1"}`, and on
successful resolution shows "Item added successfully" and invokes the
`onSuccess` callback exactly once. -/
theorem submit_happy_path_milk :
    (handleSubmit (some ⟨"H1"⟩) true milkState).2.filter isCreateItem =
      [Effect.createItem
        { name := "Milk", quantity := some 2, lowThreshold := some 1, householdId := "H1" }] ∧
    (handleSubmit (some ⟨"H1"⟩) true milkState).2.count Effect.callOnSuccess = 1 ∧
    Effect.toastSuccess "Item added successfully" ∈ (handleSubmit (some ⟨"H1"⟩) true milkState).2 := by
  refine ⟨rfl, rfl, by decide⟩

/-- A reachable state (initial state, then: type "Milk" in the name, blur
the quantity, type "abc" in the quantity, type "1" in the threshold) whose
quantity error is non-empty although full validation passes, because
`parseInt("abc")` is NaN and `NaN < 0` is false. -/
def staleErrorState : FormState :=
  handleThresholdChange "1"
    (handleQuantityChange "abc" (handleQuantityBlur (handleNameChange "Milk" initialState)))

/-- C3 counterexample: at the reachable state `staleErrorState`, full
validation passes and no household is selected, the creation service is not
called and the notification is shown — but the error mapping is NOT left
unchanged: the displayed quantity error "Quantity must be ≥ 0." is reset to
"" by the full validation that submit runs first. -/
theorem no_household_errors_change :
    validateOk staleErrorState = true ∧
    staleErrorState.errors.quantity = "Quantity must be ≥ 0." ∧
    staleErrorState.touched.quantity = true ∧
    (handleSubmit none true staleErrorState).2 =
      [Effect.toastError "Please select a household first"] ∧
    (handleSubmit none true staleErrorState).1.errors.quantity = "" :=
  ⟨rfl, rfl, rfl, rfl, rfl⟩

/-- C3 (amended): on a submit attempt where full validation passes and no
household is selected, the creation service is never called, the
"Please select a household first" notification is shown, and the draft
fields and the loading flag are left unchanged (the form stays open) — but
the error mapping is set to the all-empty result of full validation and all
fields are marked touched, rather than being left unchanged. -/
theorem no_household_blocks_submit (s : FormState) (b : Bool)
    (hv : validateOk s = true) :
    (handleSubmit none b s).2 = [Effect.toastError "Please select a household first"] ∧
    (handleSubmit none b s).1.name = s.name ∧
    (handleSubmit none b s).1.quantity = s.quantity ∧
    (handleSubmit none b s).1.lowThreshold = s.lowThreshold ∧
    (handleSubmit none b s).1.isLoading = s.isLoading ∧
    (handleSubmit none b s).1.errors = { name := "", quantity := "", threshold := "" } ∧
    (handleSubmit none b s).1.touched = { name := true, quantity := true, threshold := true } ∧
    (∀ p, Effect.createItem p ∉ (handleSubmit none b s).2) := by
  have he := validateOk_errors s hv
  simp [handleSubmit, hv, he]

theorem no_household_blocks_submit_witness :
    (handleSubmit none true milkState).2 =
      [Effect.toastError "Please select a household first"] ∧
    (handleSubmit none true milkState).1.name = milkState.name :=
  ⟨(no_household_blocks_submit milkState true rfl).1,
   (no_household_blocks_submit milkState true rfl).2.1⟩

/-- C4: when the creation-service call rejects, the error is logged and the
"Failed to add item" notification is shown (never `onSuccess`, and no
rethrow: the handler returns normally with exactly these effects), the draft
fields are left unchanged, and on both outcomes the loading flag ends
cleared. -/
theorem submit_failure_path (s : FormState) (hh : Household)
    (hv : validateOk s = true) :
    (∀ b, (handleSubmit (some hh) b s).1.isLoading = false) ∧
    (handleSubmit (some hh) false s).2 =
      [Effect.createItem
        { name := s.name, quantity := parseIntJS s.quantity
        , lowThreshold := parseIntJS s.lowThreshold, householdId := hh.key }
      , Effect.logError, Effect.toastError "Failed to add item"] ∧
    (handleSubmit (some hh) false s).1.name = s.name ∧
    (handleSubmit (some hh) false s).1.quantity = s.quantity ∧
    (handleSubmit (some hh) false s).1.lowThreshold = s.lowThreshold ∧
    Effect.callOnSuccess ∉ (handleSubmit (some hh) false s).2 := by
  constructor
  · intro b
    cases b <;> simp [handleSubmit, hv]
  · simp [handleSubmit, hv]

theorem submit_failure_path_witness :
    (handleSubmit (some ⟨"H1"⟩) false milkState).1.isLoading = false ∧
    Effect.callOnSuccess ∉ (handleSubmit (some ⟨"H1"⟩) false milkState).2 :=
  ⟨(submit_failure_path milkState ⟨"H1"⟩ rfl).1 false,
   (submit_failure_path milkState ⟨"H1"⟩ rfl).2.2.2.2.2⟩

/-- C5: submitting with an empty (or whitespace-only) name marks all three
fields touched, sets the name error to exactly "Item name is required." (so
the name error paragraph is rendered), full validation returns false, and no
effect is produced — in particular the creation service is not called. -/
theorem submit_empty_name_blocked (s : FormState) (h : Option Household) (b : Bool)
    (hn : jsTrim s.name = "") :
    validateOk s = false ∧
    (handleSubmit h b s).1.touched = { name := true, quantity := true, threshold := true } ∧
    (handleSubmit h b s).1.errors.name = "Item name is required." ∧
    rendersNameError (handleSubmit h b s).1 = true ∧
    (handleSubmit h b s).2 = [] := by
  have hname : (validateErrors s).name = "Item name is required." := by
    simp [validateErrors, hn]
  have hv : validateOk s = false := by
    unfold validateOk
    simp [hname]
  refine ⟨hv, ?_, ?_, ?_, ?_⟩ <;> simp [handleSubmit, hv, rendersNameError, hname]

/-- A state whose name is whitespace-only and whose other fields are valid. -/
def wsNameState : FormState :=
  { initialState with name := "   ", quantity := "2", lowThreshold := "1" }

theorem submit_empty_name_blocked_witness :
    validateOk wsNameState = false ∧
    (handleSubmit none true wsNameState).2 = [] :=
  ⟨(submit_empty_name_blocked wsNameState none true rfl).1,
   (submit_empty_name_blocked wsNameState none true rfl).2.2.2.2⟩

/-- C6 (code behaviour at the failing input): focusing the name field with
name `"Mi"` and the suggestion panel hidden recomputes the suggestion list
(`["Milk"]`) but leaves `showSuggestions` false, because
`setSuggestions(filtered)` evaluates to the falsy `undefined` and the chain
`name && setSuggestions(...) && setShowSuggestions(true)` short-circuits
before `setShowSuggestions(true)`.  The panel is therefore never shown on
focus, contrary to the dead `setShowSuggestions(true)` call in the source. -/
theorem focus_recomputes_but_does_not_show :
    (handleNameFocus { initialState with name := "Mi" }).suggestions = ["Milk"] ∧
    (handleNameFocus { initialState with name := "Mi" }).showSuggestions = false := by
  constructor <;> decide

/-- C7: for every form state (reachable ones in particular) and each of the
three fields, the inline error paragraph is rendered only when that field's
touched flag is true — the render guards are conjunctions with the flag. -/
theorem error_rendered_only_if_touched (s : FormState) :
    (rendersNameError s = true → s.touched.name = true) ∧
    (rendersQuantityError s = true → s.touched.quantity = true) ∧
    (rendersThresholdError s = true → s.touched.threshold = true) := by
  unfold rendersNameError rendersQuantityError rendersThresholdError
  exact ⟨fun h => (Bool.and_eq_true _ _ ▸ h).2,
         fun h => (Bool.and_eq_true _ _ ▸ h).2,
         fun h => (Bool.and_eq_true _ _ ▸ h).2⟩

/-- A state whose three errors are set and whose three fields are touched. -/
def touchedErrorState : FormState :=
  { initialState with
    errors := { name := "Item name is required.", quantity := "Quantity must be ≥ 0."
              , threshold := "Threshold must be > 0." }
  , touched := { name := true, quantity := true, threshold := true } }

theorem error_rendered_only_if_touched_witness :
    touchedErrorState.touched.name = true ∧
    touchedErrorState.touched.quantity = true ∧
    touchedErrorState.touched.threshold = true :=
  ⟨(error_rendered_only_if_touched touchedErrorState).1 (by decide),
   (error_rendered_only_if_touched touchedErrorState).2.1 (by decide),
   (error_rendered_only_if_touched touchedErrorState).2.2 (by decide)⟩

/-- C8: whenever a submission is in flight (`isLoading` true), the submit
button's `disabled` attribute is true, so a second concurrent submission
cannot be triggered from the button. -/
theorem loading_disables_submit (s : FormState) (h : s.isLoading = true) :
    submitDisabled s = true := by
  unfold submitDisabled
  rw [h]
  exact Bool.or_true _

theorem loading_disables_submit_witness :
    submitDisabled { milkState with isLoading := true } = true :=
  loading_disables_submit { milkState with isLoading := true } rfl

/-- C10: there are non-empty quantity and threshold strings that `parseInt`
maps to NaN ("abc", and the whitespace-only " ") on which the corresponding
full-validation rule reports no error — so with the other fields valid,
`validate` returns true — while the submit-enabled `isValid` is false for
the same state: full validation is strictly weaker than the submit-enabled
predicate. -/
theorem validate_weaker_than_submit_enabled :
    ("abc" : String) ≠ "" ∧ parseIntJS "abc" = none ∧
    validateOk { milkState with quantity := "abc" } = true ∧
    isValidB { milkState with quantity := "abc" } = false ∧
    (" " : String) ≠ "" ∧ parseIntJS " " = none ∧
    validateOk { milkState with lowThreshold := " " } = true ∧
    isValidB { milkState with lowThreshold := " " } = false :=
  ⟨by decide, rfl, rfl, rfl, by decide, rfl, rfl, rfl⟩
